import Mathlib

/-!
Verification development for the voice-analysis application (`app.py`).

The analysis/feedback core of the application is embedded shallowly:
Python floats are modelled as rationals (`ℚ`), NumPy arrays as `List ℚ`,
`None`-able values as `Option ℚ`, and code that can raise as `Except`.
Library calls whose numerics are irrelevant to the claims (STFT features,
LPC coefficients, polynomial roots) are abstracted as function parameters;
everything the claims depend on is translated from the source.
-/

namespace VoiceApp

/-! ## Numeric helpers: Python's round-half-to-even and sequence statistics -/

/-- Python's builtin `round(x)` (banker's rounding, half to even), on `ℚ`. -/
def pyRound (q : ℚ) : ℤ :=
  let n : ℤ := ⌊q⌋
  let f : ℚ := q - n
  if f < 1/2 then n
  else if 1/2 < f then n + 1
  else if n % 2 = 0 then n else n + 1

/-- Python's `round(x, 1)` on `ℚ`. -/
def pyRound1 (q : ℚ) : ℚ := (pyRound (q * 10) : ℚ) / 10

/-- Python's `round(x, 2)` on `ℚ`. -/
def pyRound2 (q : ℚ) : ℚ := (pyRound (q * 100) : ℚ) / 100

/-- Python's `round(x, 4)` on `ℚ`. -/
def pyRound4 (q : ℚ) : ℚ := (pyRound (q * 10000) : ℚ) / 10000

/-- `np.mean` of a sequence (0 for an empty one, as a convention). -/
def qmean (l : List ℚ) : ℚ := l.sum / l.length

/-- The square of `np.std` (population variance, `ddof = 0`): the mean of the
squared deviations from the mean.  `np.std` itself is the (irrational) square
root of this quantity, so the development works with the square. -/
def qvarPop (l : List ℚ) : ℚ := qmean (l.map (fun x => (x - qmean l) ^ 2))

/-! ## FeatureSet and `generate_feedback` (app.py lines 21-58) -/

/-- The scalar summary fields of the dictionary built by `analyze_features`
that the feedback and comparison functions read. -/
structure FeatureSet where
  duration : ℚ
  rms_mean : ℚ
  pitch_mean : ℚ
  pitch_std : ℚ
  clarity_mean : ℚ
deriving DecidableEq

def quietPhrase : String := "声量が控えめです。"
def loudPhrase : String := "十分な声量があり、力強い発話です。"
def moderatePhrase : String := "適度な音量で話せています。"
def lowPitchPhrase : String := "やや低めの声です。"
def highPitchPhrase : String := "比較的高めの声です。"
def stablePitchPhrase : String := "安定した音程です。"
def clearPhrase : String := "発話が明瞭で聞き取りやすいです。"
def muffledPhrase : String := "ややこもった音に聞こえる可能性があります。"

/-- The list `fb` built by `generate_feedback` (app.py lines 37-57): a
volume branch (`< 0.01` / `> 0.03` / else), a pitch branch
(`< 110` / `> 250` / else), and a clarity branch (`< 0.2` / `> 0.4`, no
else branch). -/
def generate_feedback_list (f : FeatureSet) : List String :=
  let fb : List String := []
  let fb := if f.rms_mean < 1/100 then fb ++ [quietPhrase]
            else if f.rms_mean > 3/100 then fb ++ [loudPhrase]
            else fb ++ [moderatePhrase]
  let fb := if f.pitch_mean < 110 then fb ++ [lowPitchPhrase]
            else if f.pitch_mean > 250 then fb ++ [highPitchPhrase]
            else fb ++ [stablePitchPhrase]
  if f.clarity_mean < 1/5 then fb ++ [clearPhrase]
  else if f.clarity_mean > 2/5 then fb ++ [muffledPhrase]
  else fb

/-- `generate_feedback` (app.py line 58): the phrases joined by a space. -/
def generate_feedback (f : FeatureSet) : String :=
  String.intercalate " " (generate_feedback_list f)

/-! ## Segment tag rules (app.py lines 131-143) -/

def slowPhrase : String := "ややゆっくり"
def fastPhrase : String := "速いペース"
def monotonePhrase : String := "単調な抑揺"
def expressivePhrase : String := "抑揺が豊か"
def pauseHeavyPhrase : String := "ポーズ多め"
def stableSegPhrase : String := "比較的安定"

/-- The `comments` list of the segment evaluation loop (app.py lines
131-143): `if rate < 2.5 / elif rate > 5`, `if f0_std < 15 / elif
f0_std > 30`, `if pause_ratio > 30`, and the fallback appended when the
list is still empty. -/
def seg_comments (rate f0_std pausePct : ℚ) : List String :=
  let cs : List String := []
  let cs := if rate < 5/2 then cs ++ [slowPhrase]
            else if rate > 5 then cs ++ [fastPhrase]
            else cs
  let cs := if f0_std < 15 then cs ++ [monotonePhrase]
            else if f0_std > 30 then cs ++ [expressivePhrase]
            else cs
  let cs := if pausePct > 30 then cs ++ [pauseHeavyPhrase]
            else cs
  if cs.isEmpty then [stableSegPhrase] else cs

/-- The same tag table written as independent rules, following the spec's
wording (each threshold evaluated on its own, results concatenated). -/
def seg_tags_indep (rate f0_std pausePct : ℚ) : List String :=
  let cs :=
    (if rate < 5/2 then [slowPhrase] else [])
    ++ (if rate > 5 then [fastPhrase] else [])
    ++ (if f0_std < 15 then [monotonePhrase] else [])
    ++ (if f0_std > 30 then [expressivePhrase] else [])
    ++ (if pausePct > 30 then [pauseHeavyPhrase] else [])
  if cs.isEmpty then [stableSegPhrase] else cs

/-! ## Comparison of two FeatureSets (app.py lines 187-212) -/

/-- The helper `pct` inside `compare_features` (app.py lines 188-189):
the percentage delta `(b - a) / a * 100` when `a != 0`, the `N/A`
sentinel (modelled as `none`) otherwise.  The source formats the value
into a string with one decimal; the numeric value is modelled. -/
def pct (a b : ℚ) : Option ℚ :=
  if a ≠ 0 then some ((b - a) / a * 100) else none

/-- The rows of the dictionary returned by `compare_features` (app.py
lines 190-196).  Each row is (label, delta), where the delta component is
`none` when the row's format string invokes no `pct` at all (the duration
row), and `some (pct a b)` when it embeds `pct a b`.  The before/after
number formatting is abstracted away. -/
def compare_features (fa fbb : FeatureSet) : List (String × Option (Option ℚ)) :=
  [("音声長", none),
   ("平均音量", some (pct fa.rms_mean fbb.rms_mean)),
   ("平均ピッチ", some (pct fa.pitch_mean fbb.pitch_mean)),
   ("ピッチばらつき", some (pct fa.pitch_std fbb.pitch_std)),
   ("明瞭度", some (pct fa.clarity_mean fbb.clarity_mean))]

def bLouderPhrase : String := "Bの方が声量が大きいです。"
def aLouderPhrase : String := "Aの方が声量が大きいです。"
def bStablePhrase : String := "Bは音程が安定しています。"
def aVariedPhrase : String := "Aの方が抑揺があります。"
def bClearerPhrase : String := "Bは明瞭度が高めです。"
def aClearerPhrase : String := "Aは明瞭度が高めです。"

/-- The `msg` list of `compare_feedback` (app.py lines 198-212): three
two-way branches, each appending exactly one phrase. -/
def compare_feedback_list (fa fbb : FeatureSet) : List String :=
  let msg : List String := []
  let msg := if fbb.rms_mean > fa.rms_mean then msg ++ [bLouderPhrase]
             else msg ++ [aLouderPhrase]
  let msg := if fbb.pitch_std < fa.pitch_std then msg ++ [bStablePhrase]
             else msg ++ [aVariedPhrase]
  if fbb.clarity_mean < fa.clarity_mean then msg ++ [bClearerPhrase]
  else msg ++ [aClearerPhrase]

/-- `compare_feedback` (app.py line 212): the phrases joined by a space. -/
def compare_feedback (fa fbb : FeatureSet) : String :=
  String.intercalate " " (compare_feedback_list fa fbb)

/-! ## Claim C4 -/

/-- Claim C4: the feedback phrase list is exactly one volume phrase
(quiet below 0.01, loud above 0.03, else moderate), then exactly one
pitch phrase (low below 110, high above 250, else stable), then a clarity
phrase (clear below 0.2, muffled above 0.4) that is omitted entirely in
the middle band, in that fixed order. -/
theorem claim_c4_feedback_phrases :
    ∀ f : FeatureSet,
      generate_feedback_list f =
        [if f.rms_mean < 1/100 then quietPhrase
         else if f.rms_mean > 3/100 then loudPhrase else moderatePhrase,
         if f.pitch_mean < 110 then lowPitchPhrase
         else if f.pitch_mean > 250 then highPitchPhrase else stablePitchPhrase]
        ++ (if f.clarity_mean < 1/5 then [clearPhrase]
            else if f.clarity_mean > 2/5 then [muffledPhrase] else [])
      ∧ generate_feedback f = String.intercalate " " (generate_feedback_list f)
      ∧ ((generate_feedback_list f).length =
          if ¬ f.clarity_mean < 1/5 ∧ ¬ f.clarity_mean > 2/5 then 2 else 3) := by
  intro f
  refine ⟨?_, rfl, ?_⟩
  · simp only [generate_feedback_list]
    split_ifs <;> rfl
  · simp only [generate_feedback_list]
    split_ifs with h1 h2 h3 h4 h5 h6 <;> simp_all

/-! ## Claim C7 -/

/-- Claim C7: the tag rules behave as independently evaluated rules
(several can fire on one segment), a segment with no firing rule gets
exactly the fallback tag, and every segment has at least one tag; the
concrete segment with rate 1, f0 deviation 10 and pause percentage 40
receives three tags at once. -/
theorem claim_c7_segment_tags :
    (∀ rate f0_std pausePct : ℚ,
        seg_comments rate f0_std pausePct = seg_tags_indep rate f0_std pausePct)
  ∧ (∀ rate f0_std pausePct : ℚ, seg_comments rate f0_std pausePct ≠ [])
  ∧ seg_comments 1 10 40 = [slowPhrase, monotonePhrase, pauseHeavyPhrase] := by
  refine ⟨?_, ?_, by norm_num [seg_comments]⟩
  · intro rate f0_std pausePct
    simp only [seg_comments, seg_tags_indep]
    split_ifs <;> first
      | rfl
      | (exfalso; linarith)
      | simp_all
  · intro rate f0_std pausePct
    simp only [seg_comments]
    split_ifs <;> simp_all

/-! ## Claim C5 -/

/-- A concrete FeatureSet with nonzero duration, used to exhibit that the
duration row of `compare_features` carries no percent delta. -/
def fsDur5 : FeatureSet :=
  { duration := 5, rms_mean := 1/50, pitch_mean := 120, pitch_std := 20,
    clarity_mean := 3/10 }

/-- Claim C5 counterexample: comparing a FeatureSet with itself, the
duration row of `compare_features` contains no percent delta at all even
though the A-value (duration 5) is nonzero — contradicting the claim that
a percent delta is computed for duration and is absent only when the
A-value is 0. -/
theorem claim_c5_counterexample :
    (compare_features fsDur5 fsDur5).get? 0 = some ("音声長", none)
    ∧ fsDur5.duration ≠ 0 := by
  refine ⟨rfl, by decide⟩

/-- Claim C5 (amended): `pct` is invoked for rms_mean, pitch_mean,
pitch_std and clarity_mean but not for duration (whose row only formats
the two values); for those four metrics the percent delta of two equal
values is 0, the delta is the undefined sentinel exactly when the A-value
is 0, and the division is only ever performed with a nonzero
denominator. -/
theorem claim_c5_pct_delta :
    (∀ a : ℚ, pct a a = if a = 0 then none else some 0)
  ∧ (∀ a b : ℚ, pct a b = none ↔ a = 0)
  ∧ (∀ a b : ℚ, pct a b = if a = 0 then none else some ((b - a) / a * 100))
  ∧ (∀ fa fbb : FeatureSet,
      compare_features fa fbb =
        [("音声長", none),
         ("平均音量", some (pct fa.rms_mean fbb.rms_mean)),
         ("平均ピッチ", some (pct fa.pitch_mean fbb.pitch_mean)),
         ("ピッチばらつき", some (pct fa.pitch_std fbb.pitch_std)),
         ("明瞭度", some (pct fa.clarity_mean fbb.clarity_mean))]) := by
  refine ⟨?_, ?_, ?_, fun fa fbb => rfl⟩
  · intro a
    by_cases h : a = 0 <;> simp [pct, h]
  · intro a b
    by_cases h : a = 0 <;> simp [pct, h]
  · intro a b
    by_cases h : a = 0 <;> simp [pct, h]

/-! ## Claim C8 -/

/-- Claim C8: in the comparative feedback, B is called louder iff B's
rms_mean is strictly greater than A's, B is called more pitch-stable iff
B's pitch_std is strictly smaller, and B is called clearer iff B's
clarity_mean is strictly smaller; comparing a FeatureSet with itself
(all ties), every branch falls to the A/else phrase. -/
theorem claim_c8_comparative_winners :
    (∀ fa fbb : FeatureSet,
        ((compare_feedback_list fa fbb).get? 0 = some bLouderPhrase
          ↔ fbb.rms_mean > fa.rms_mean)
      ∧ ((compare_feedback_list fa fbb).get? 1 = some bStablePhrase
          ↔ fbb.pitch_std < fa.pitch_std)
      ∧ ((compare_feedback_list fa fbb).get? 2 = some bClearerPhrase
          ↔ fbb.clarity_mean < fa.clarity_mean))
  ∧ (∀ f : FeatureSet,
      compare_feedback_list f f = [aLouderPhrase, aVariedPhrase, aClearerPhrase]) := by
  have hlist : ∀ fa fbb : FeatureSet,
      compare_feedback_list fa fbb =
        [if fbb.rms_mean > fa.rms_mean then bLouderPhrase else aLouderPhrase,
         if fbb.pitch_std < fa.pitch_std then bStablePhrase else aVariedPhrase,
         if fbb.clarity_mean < fa.clarity_mean then bClearerPhrase else aClearerPhrase] := by
    intro fa fbb
    simp only [compare_feedback_list]
    split_ifs <;> rfl
  constructor
  · intro fa fbb
    rw [hlist]
    refine ⟨?_, ?_, ?_⟩
    · by_cases hc : fbb.rms_mean > fa.rms_mean
      · simp [hc]
      · simp [hc, aLouderPhrase, bLouderPhrase]
    · by_cases hc : fbb.pitch_std < fa.pitch_std
      · simp [hc]
      · simp [hc, aVariedPhrase, bStablePhrase]
    · by_cases hc : fbb.clarity_mean < fa.clarity_mean
      · simp [hc]
      · simp [hc, aClearerPhrase, bClearerPhrase]
  · intro f
    rw [hlist]
    simp

/-! ## Extended-feature feedback (app.py lines 282-297) -/

/-- Python truthiness of a float-or-None value: `None` and `0.0` are falsy. -/
def pyTruthy : Option ℚ → Bool
  | none => false
  | some x => decide (x ≠ 0)

def formantPhrase : String := "母音の明瞭度が低く、発音がこもっている可能性があります。"
def dullSpectrumPhrase : String := "音声全体がこもった印象を与えるスペクトル分布です。"
def sharpSpectrumPhrase : String := "明瞭で鋭い印象の音声特性が見られます。"
def narrowBandPhrase : String := "周波数の広がりが狭く、やや単調な音質です。"
def weakHighPhrase : String := "高域の減衰が強く、声の抜けが弱く感じられる可能性があります。"
def noisyPhrase : String := "ハーモニック成分が少なく、ノイズ的な傾向が強いです。"
def noAnomalyMsg : String := "音響指標に大きな異常は見られません。"
def natFbHeader : String := "📝 音響フィードバック:\n"

/-- The `feedback` list of `generate_natural_feedback` (app.py lines
283-296): the formant rule guarded by `if f1 and f2` (Python truthiness),
a centroid `if/elif`, and three independent threshold rules
(`bandwidth_mean < 300`, `slope < -10`, `flatness_mean > 0.85`).  The
source appends to `feedback` statement by statement and no condition
reads the list, so the sequential appends are written as the
concatenation of each statement's contribution, in source order. -/
def natFbList (f1 f2 : Option ℚ) (centroid_mean bandwidth_mean slope flatness_mean : ℚ) :
    List String :=
  (if pyTruthy f1 && pyTruthy f2 then
     if f1.getD 0 > 800 ∨ f2.getD 0 < 1000 then [formantPhrase] else []
   else [])
  ++ (if centroid_mean < 1200 then [dullSpectrumPhrase]
      else if centroid_mean > 2500 then [sharpSpectrumPhrase]
      else [])
  ++ (if bandwidth_mean < 300 then [narrowBandPhrase] else [])
  ++ (if slope < -10 then [weakHighPhrase] else [])
  ++ (if flatness_mean > 17/20 then [noisyPhrase] else [])

/-- `generate_natural_feedback` (app.py line 297): the header plus the
joined bullet lines when at least one rule fired, the no-anomaly sentinel
otherwise. -/
def generate_natural_feedback (f1 f2 : Option ℚ) (c bw sl fl : ℚ) : String :=
  if (natFbList f1 f2 c bw sl fl).isEmpty then noAnomalyMsg
  else natFbHeader
       ++ String.intercalate "\n" ((natFbList f1 f2 c bw sl fl).map (fun line => "- " ++ line))

/-- The same rule table written as independent rules, following the
spec's wording, with the formant rule's guard spelled out: both formants
present (non-`None`) and nonzero. -/
def natRulesIndep (f1 f2 : Option ℚ) (c bw sl fl : ℚ) : List String :=
  (match f1, f2 with
   | some a, some b =>
       if (a ≠ 0 ∧ b ≠ 0) ∧ (a > 800 ∨ b < 1000) then [formantPhrase] else []
   | _, _ => [])
  ++ (if c < 1200 then [dullSpectrumPhrase] else [])
  ++ (if c > 2500 then [sharpSpectrumPhrase] else [])
  ++ (if bw < 300 then [narrowBandPhrase] else [])
  ++ (if sl < -10 then [weakHighPhrase] else [])
  ++ (if fl > 17/20 then [noisyPhrase] else [])

/-- The formant guard of the source (`if f1 and f2:` then the inner
threshold test) agrees with the spec-style single rule whose guard is
"both present and nonzero". -/
theorem natFb_formant_piece (f1 f2 : Option ℚ) :
    (if pyTruthy f1 && pyTruthy f2 then
       if f1.getD 0 > 800 ∨ f2.getD 0 < 1000 then [formantPhrase] else []
     else [])
    = (match f1, f2 with
       | some a, some b =>
           if (a ≠ 0 ∧ b ≠ 0) ∧ (a > 800 ∨ b < 1000) then [formantPhrase] else []
       | _, _ => ([] : List String)) := by
  cases f1 with
  | none => simp [pyTruthy]
  | some a =>
    cases f2 with
    | none => simp [pyTruthy]
    | some b =>
      by_cases ha : a = 0
      · simp [pyTruthy, ha]
      · by_cases hb : b = 0
        · simp [pyTruthy, ha, hb]
        · simp [pyTruthy, ha, hb]

/-- The centroid `if/elif` equals two independent rules, because its two
conditions exclude each other. -/
theorem elif_centroid_split (c : ℚ) :
    (if c < 1200 then [dullSpectrumPhrase]
     else if c > 2500 then [sharpSpectrumPhrase] else ([] : List String))
    = (if c < 1200 then [dullSpectrumPhrase] else [])
      ++ (if c > 2500 then [sharpSpectrumPhrase] else []) := by
  by_cases h1 : c < 1200
  · have h2 : ¬ c > 2500 := by linarith
    simp [h1, h2]
  · by_cases h2 : c > 2500 <;> simp [h1, h2]

/-- The non-sentinel output starts with the header, so it never equals the
no-anomaly sentinel. -/
theorem natFbHeader_append_ne (t : String) : natFbHeader ++ t ≠ noAnomalyMsg := by
  intro h
  have h1 : (natFbHeader ++ t).data = noAnomalyMsg.data := congrArg String.data h
  have h2 : (natFbHeader ++ t).data = natFbHeader.data ++ t.data := rfl
  have h5 : (natFbHeader.data ++ t.data).head? = some '📝' := rfl
  rw [h2] at h1
  rw [h1] at h5
  have h6 : noAnomalyMsg.data.head? = some '音' := rfl
  rw [h6] at h5
  exact absurd h5 (by decide)

/-- The sentinel is returned exactly for an empty rule list, whatever the
list is. -/
theorem natFb_sentinel_iff (L : List String) :
    (if L.isEmpty then noAnomalyMsg
     else natFbHeader ++ String.intercalate "\n" (L.map (fun line => "- " ++ line)))
      = noAnomalyMsg
    ↔ L = [] := by
  cases L with
  | nil => simp
  | cons a t => simp [natFbHeader_append_ne]

/-! ## Claim C9 -/

/-- Claim C9 counterexample: with `f1 = 0.0` present and `f2 = 500 <
1000` (and all other metrics in their quiet bands), the code returns the
no-anomaly sentinel even though, per the claim, the formant rule fires
(both formants present and `f2 < 1000`), so the sentinel should not be
returned. -/
theorem claim_c9_counterexample :
    generate_natural_feedback (some 0) (some 500) 2000 400 0 (1/2) = noAnomalyMsg
    ∧ (some (0:ℚ)).isSome = true ∧ (some (500:ℚ)).isSome = true
    ∧ ((500:ℚ) < 1000) := by
  refine ⟨?_, rfl, rfl, by norm_num⟩
  norm_num [generate_natural_feedback, natFbList, pyTruthy]

/-- Claim C9 (amended): the rule table behaves as independently evaluated
rules, with the formant rule firing exactly when both formants are
present AND nonzero (Python truthiness) and `f1 > 800 ∨ f2 < 1000`; the
function returns the no-anomaly sentinel if and only if no rule fired. -/
theorem claim_c9_natural_feedback_rules :
    ∀ (f1 f2 : Option ℚ) (c bw sl fl : ℚ),
      natFbList f1 f2 c bw sl fl = natRulesIndep f1 f2 c bw sl fl
      ∧ (generate_natural_feedback f1 f2 c bw sl fl = noAnomalyMsg
          ↔ natFbList f1 f2 c bw sl fl = []) := by
  intro f1 f2 c bw sl fl
  constructor
  · simp only [natFbList, natRulesIndep]
    rw [natFb_formant_piece, elif_centroid_split]
    simp [List.append_assoc]
  · exact natFb_sentinel_iff (natFbList f1 f2 c bw sl fl)

/-! ## Claim C10 -/

/-- When the truthiness guard is false the formant rule contributes
nothing, so the list only depends on the four scalar metrics. -/
theorem natFbList_gate_false (f1 f2 : Option ℚ) (c bw sl fl : ℚ)
    (h : (pyTruthy f1 && pyTruthy f2) = false) :
    natFbList f1 f2 c bw sl fl = natFbList none none c bw sl fl := by
  simp only [natFbList]
  rw [h]
  simp [pyTruthy]

/-- The formant phrase never appears once the guard is false. -/
theorem formantPhrase_notMem_gateless (c bw sl fl : ℚ) :
    formantPhrase ∉ natFbList none none c bw sl fl := by
  simp only [natFbList, pyTruthy, Bool.false_and, Bool.false_eq_true, if_false,
    List.nil_append]
  split_ifs <;>
    simp_all [formantPhrase, dullSpectrumPhrase, sharpSpectrumPhrase,
      narrowBandPhrase, weakHighPhrase, noisyPhrase]

/-- Claim C10: formant presence is tested by Python truthiness, so an
exactly-zero formant behaves exactly like an absent (`None`) one: the
output is unchanged when `some 0` is replaced by `none`, and the formant
phrase is never produced when either formant is `0.0`, even when
`f2 < 1000`. -/
theorem claim_c10_zero_formant_truthiness :
    ∀ (f2 : Option ℚ) (c bw sl fl : ℚ),
      generate_natural_feedback (some 0) f2 c bw sl fl
        = generate_natural_feedback none f2 c bw sl fl
      ∧ (∀ f1 : Option ℚ,
          generate_natural_feedback f1 (some 0) c bw sl fl
            = generate_natural_feedback f1 none c bw sl fl)
      ∧ formantPhrase ∉ natFbList (some 0) f2 c bw sl fl
      ∧ (∀ f1 : Option ℚ, formantPhrase ∉ natFbList f1 (some 0) c bw sl fl) := by
  intro f2 c bw sl fl
  have hz : pyTruthy (some 0) = false := by simp [pyTruthy]
  have hL : ∀ g : Option ℚ, natFbList (some 0) g c bw sl fl = natFbList none none c bw sl fl := by
    intro g
    exact natFbList_gate_false _ _ _ _ _ _ (by rw [hz]; rfl)
  have hLn : ∀ g : Option ℚ, natFbList g none c bw sl fl = natFbList none none c bw sl fl := by
    intro g
    exact natFbList_gate_false _ _ _ _ _ _ (by simp [pyTruthy])
  have hR : ∀ g : Option ℚ, natFbList g (some 0) c bw sl fl = natFbList none none c bw sl fl := by
    intro g
    exact natFbList_gate_false _ _ _ _ _ _ (by rw [hz, Bool.and_false])
  have hNn : ∀ g : Option ℚ, natFbList none g c bw sl fl = natFbList none none c bw sl fl := by
    intro g
    exact natFbList_gate_false _ _ _ _ _ _ (by simp [pyTruthy])
  refine ⟨?_, ?_, ?_, ?_⟩
  · simp only [generate_natural_feedback]
    rw [hL f2, hNn f2]
  · intro f1
    simp only [generate_natural_feedback]
    rw [hR f1, hLn f1]
  · rw [hL f2]
    exact formantPhrase_notMem_gateless c bw sl fl
  · intro f1
    rw [hR f1]
    exact formantPhrase_notMem_gateless c bw sl fl

/-! ## Segment word count and speech rate (app.py lines 117-120) -/

/-- The characters Python's `str.split()` treats as delimiters (the ones
relevant here: ASCII whitespace and the full-width space U+3000, which is
Unicode whitespace and additionally replaced by the source). -/
def isPyWS (ch : Char) : Bool :=
  ch = ' ' || ch = '\t' || ch = '\n' || ch = '\r' || ch = '\x0B' || ch = '\x0C' || ch = '　'

/-- Number of maximal runs of non-delimiter characters: what
`len(text.split())` counts.  The Bool argument records whether the scan
is inside a token. -/
def countTokens : List Char → Bool → ℕ
  | [], _ => 0
  | ch :: cs, inTok =>
    if isPyWS ch then countTokens cs false
    else (if inTok then 0 else 1) + countTokens cs true

/-- app.py line 119: `words = len(text.replace("　", " ").split())`.  The
single-character replace is modelled as a character map; the `.strip()`
of line 118 removes only leading/trailing whitespace and cannot change
the count. -/
def seg_word_count (text : String) : ℕ :=
  countTokens (text.data.map (fun ch => if ch = '　' then ' ' else ch)) false

/-- app.py line 120: `rate = round(words / dur, 2) if dur > 0 else 0`
with `dur = s_end - s_start`. -/
def seg_rate (s e : ℚ) (text : String) : ℚ :=
  let dur := e - s
  if dur > 0 then pyRound2 ((seg_word_count text : ℚ) / dur) else 0

/-! ## Claim C6 -/

/-- Claim C6 counterexample: for the segment start 0, end 3, text "a"
(one word), the code's rate is `round(1/3, 2) = 0.33`, not the claimed
`word_count / (end - start) = 1/3`. -/
theorem claim_c6_counterexample :
    seg_word_count "a" = 1
    ∧ seg_rate 0 3 "a" = 33/100
    ∧ seg_rate 0 3 "a" ≠ (seg_word_count "a" : ℚ) / (3 - 0) := by
  have h1 : seg_word_count "a" = 1 := rfl
  have h2 : seg_rate 0 3 "a" = 33/100 := by
    norm_num [seg_rate, pyRound2, pyRound, h1]
  refine ⟨h1, h2, ?_⟩
  rw [h2, h1]
  norm_num

/-- Claim C6 (amended): the word count splits the text on whitespace with
the full-width space as a delimiter; the rate is `word_count / (end -
start)` rounded to two decimals when `end > start`, and the sentinel 0
(never a division by zero) when `end <= start`. -/
theorem claim_c6_word_count_rate :
    (∀ (s e : ℚ) (text : String),
        seg_rate s e text =
          if s < e then pyRound2 ((seg_word_count text : ℚ) / (e - s)) else 0)
  ∧ (∀ (s e : ℚ) (text : String), e ≤ s → seg_rate s e text = 0)
  ∧ seg_word_count "こんにちは　みなさん" = 2
  ∧ seg_word_count "hello world  foo" = 3 := by
  refine ⟨?_, ?_, rfl, rfl⟩
  · intro s e text
    simp [seg_rate, sub_pos]
  · intro s e text h
    have hneg : ¬ (e - s > 0) := by
      simp only [gt_iff_lt, sub_pos, not_lt]
      exact h
    simp [seg_rate, hneg]

/-! ## Pitch tracking and `analyze_features` (app.py lines 21-35) -/

/-- Modelled from the spec: the lower end of the YIN lag search range,
`ceil(sample_rate / fmax)` with `fmax = 500`.  The implementation of
`librosa.yin` is not part of this repository's source, so the lag search
is modelled from spec section 4.3. -/
def yinLagLo (sr : ℕ) : ℕ := (sr + 499) / 500

/-- Modelled from the spec: the upper end of the YIN lag search range,
`floor(sample_rate / fmin)` with `fmin = 50`. -/
def yinLagHi (sr : ℕ) : ℕ := sr / 50

/-- Modelled from the spec: one frame of the YIN-style tracker.  `cmnd`
is the frame's cumulative-mean-normalized difference function (abstract);
the first lag in the search range where it drops below the threshold 0.1
gives the frequency `sample_rate / lag`; a frame with no qualifying lag
yields the numeric value 0. -/
def yinFrame (sr : ℕ) (cmnd : ℕ → ℚ) : ℚ :=
  match (List.range' (yinLagLo sr) (yinLagHi sr + 1 - yinLagLo sr)).find?
      (fun lag => decide (cmnd lag < 1/10)) with
  | some lag => (sr : ℚ) / lag
  | none => 0

/-- Modelled from the spec: `librosa.yin(y, fmin=50, fmax=500, sr=sr)` as
the per-frame YIN estimate, one value per analysis frame (the frames'
difference functions are abstract inputs). -/
def yinModel (sr : ℕ) (cmnds : List (ℕ → ℚ)) : List ℚ := cmnds.map (yinFrame sr)

/-- The dictionary built by `analyze_features` (app.py lines 21-35), with
the population standard deviation represented by its square. -/
structure AnalysisFeatures where
  duration : ℚ
  rms : List ℚ
  pitch : List ℚ
  clarity : List ℚ
  rms_mean : ℚ
  pitch_mean : ℚ
  pitch_var : ℚ
  clarity_mean : ℚ

/-- `analyze_features` (app.py lines 21-35).  `librosa.feature.rms` and
`librosa.feature.spectral_flatness` are abstracted as the per-frame
series they return (`rmsF y`, `flatF y`); the pitch series is the YIN
model over the frames' difference functions (`cmnds y`);
`librosa.get_duration` is `len(y) / sr`; the four summary statistics are
`np.mean` / `np.std` over the full series. -/
def analyze_features (sr : ℕ) (y : List ℚ) (rmsF flatF : List ℚ → List ℚ)
    (cmnds : List ℚ → List (ℕ → ℚ)) : AnalysisFeatures :=
  { duration := (y.length : ℚ) / sr
  , rms := rmsF y
  , pitch := yinModel sr (cmnds y)
  , clarity := flatF y
  , rms_mean := qmean (rmsF y)
  , pitch_mean := qmean (yinModel sr (cmnds y))
  , pitch_var := qvarPop (yinModel sr (cmnds y))
  , clarity_mean := qmean (flatF y) }

/-! ## Claim C3 -/

/-- Claim C3: an unvoiced frame (no lag in the search range with
normalized difference below threshold) contributes the numeric value 0 to
the returned per-frame pitch series, and `pitch_mean` / `pitch_std` are
the arithmetic mean and the population standard deviation (represented by
its square `pitch_var`) over ALL per-frame values, unvoiced zeros
included — nothing is filtered out. -/
theorem claim_c3_unvoiced_zero_in_stats :
    ∀ (sr : ℕ) (y : List ℚ) (rmsF flatF : List ℚ → List ℚ)
      (cmnds : List ℚ → List (ℕ → ℚ)),
      (analyze_features sr y rmsF flatF cmnds).pitch = (cmnds y).map (yinFrame sr)
      ∧ (∀ cmnd : ℕ → ℚ,
          (∀ lag : ℕ, yinLagLo sr ≤ lag → lag ≤ yinLagHi sr → ¬ cmnd lag < 1/10) →
          yinFrame sr cmnd = 0)
      ∧ (analyze_features sr y rmsF flatF cmnds).pitch_mean
          = ((analyze_features sr y rmsF flatF cmnds).pitch).sum
            / ((analyze_features sr y rmsF flatF cmnds).pitch).length
      ∧ (analyze_features sr y rmsF flatF cmnds).pitch_var
          = qmean (((analyze_features sr y rmsF flatF cmnds).pitch).map
              (fun x => (x - (analyze_features sr y rmsF flatF cmnds).pitch_mean) ^ 2)) := by
  intro sr y rmsF flatF cmnds
  refine ⟨rfl, ?_, rfl, rfl⟩
  intro cmnd hno
  have hnone : (List.range' (yinLagLo sr) (yinLagHi sr + 1 - yinLagLo sr)).find?
      (fun lag => decide (cmnd lag < 1/10)) = none := by
    apply List.find?_eq_none.mpr
    intro x hx
    have hb := List.mem_range'_1.mp hx
    simp only [decide_eq_true_eq]
    exact hno x hb.1 (by omega)
  simp only [yinFrame, hnone]

/-! ## Formant estimation (app.py lines 351-360) -/

/-- `lpc_order = int(sr_full / 1000) + 2` (app.py line 353): Python's
`int()` truncates, which on a nonnegative value is the floor, i.e.
natural division. -/
def lpc_order (sr : ℕ) : ℕ := sr / 1000 + 2

/-- `np.sort` ascending on rationals. -/
def sortQ (l : List ℚ) : List ℚ := List.insertionSort (fun a b => a ≤ b) l

/-- The root-filtering and frequency-selection block (app.py lines
355-360): keep roots with nonnegative imaginary part, convert each to a
frequency `angle * sr / (2π)`, keep frequencies strictly below Nyquist,
sort ascending, and take the first and second values (rounded to one
decimal) as F1 and F2, absent when fewer exist.  Roots are pairs
(re, im) of rationals and `nang r` stands for `np.angle(r) / (2π)`, so a
frequency is `nang r * sr`. -/
def formant_pipeline (sr : ℚ) (nang : ℚ × ℚ → ℚ) (rts : List (ℚ × ℚ)) :
    Option ℚ × Option ℚ :=
  let kept := rts.filter (fun r => decide (0 ≤ r.2))
  let freqs := kept.map (fun r => nang r * sr)
  let formants := sortQ (freqs.filter (fun fr => decide (fr < sr / 2)))
  ((formants.get? 0).map pyRound1, (formants.get? 1).map pyRound1)

/-- Written from the spec's words, for the refinement comparison:
"discard roots with negative imaginary part", "discard frequencies ≥
Nyquist", sort ascending, F1 lowest and F2 second lowest (amended: each
rounded to one decimal, as the source does). -/
def formant_pipeline_spec (sr : ℚ) (nang : ℚ × ℚ → ℚ) (rts : List (ℚ × ℚ)) :
    Option ℚ × Option ℚ :=
  let kept := rts.filter (fun r => decide (¬ r.2 < 0))
  let freqs := kept.map (fun r => nang r * sr)
  let formants := sortQ (freqs.filter (fun fr => decide (¬ sr / 2 ≤ fr)))
  ((formants.get? 0).map pyRound1, (formants.get? 1).map pyRound1)

/-- The least element of a list, as `Option` (used to phrase "F1 is the
lowest resulting frequency"). -/
def minQ : List ℚ → Option ℚ
  | [] => none
  | x :: xs =>
    match minQ xs with
    | none => some x
    | some m => some (min x m)

/-! ## Claim C2 -/

/-- Claim C2 counterexample: at sample rate 1500 the code's LPC order is
`int(1500/1000) + 2 = 3`, while the claimed `round(1500/1000) + 2`
(Python's round, half to even) is 4. -/
theorem claim_c2_counterexample :
    lpc_order 1500 = 3 ∧ pyRound ((1500 : ℚ) / 1000) + 2 = 4
    ∧ (lpc_order 1500 : ℤ) ≠ pyRound ((1500 : ℚ) / 1000) + 2 := by
  have h1 : lpc_order 1500 = 3 := rfl
  have h2 : pyRound ((1500 : ℚ) / 1000) + 2 = 4 := by norm_num [pyRound]
  refine ⟨h1, h2, ?_⟩
  rw [h1, h2]
  norm_num

/-- Claim C2 (amended): the selection pipeline is exactly as described —
discard roots with negative imaginary part, convert angles to
frequencies, discard frequencies at or above Nyquist, sort ascending, F1
the lowest and F2 the second lowest, each rounded to one decimal and
absent when fewer values exist — but the LPC order is the truncation
`int(sr/1000) + 2` (the floor for a nonnegative rate), not
`round(sr/1000) + 2`.  The head of the ascending sort is a least
element, so F1 is indeed the lowest remaining frequency. -/
theorem claim_c2_formant_selection :
    (∀ (sr : ℚ) (nang : ℚ × ℚ → ℚ) (rts : List (ℚ × ℚ)),
        formant_pipeline sr nang rts = formant_pipeline_spec sr nang rts)
  ∧ (∀ sr : ℕ, (lpc_order sr : ℤ) = ⌊(sr : ℚ) / 1000⌋ + 2)
  ∧ (∀ l : List ℚ, l ≠ [] →
      ∃ m, (sortQ l).get? 0 = some m ∧ m ∈ l ∧ ∀ x ∈ l, m ≤ x) := by
  refine ⟨?_, ?_, ?_⟩
  · intro sr nang rts
    simp only [formant_pipeline, formant_pipeline_spec]
    have h1 : rts.filter (fun r => decide (0 ≤ r.2))
        = rts.filter (fun r => decide (¬ r.2 < 0)) := by
      apply List.filter_congr
      intro x hx
      simp [not_lt]
    have h2 : ∀ l : List ℚ,
        l.filter (fun fr => decide (fr < sr / 2))
          = l.filter (fun fr => decide (¬ sr / 2 ≤ fr)) := by
      intro l
      apply List.filter_congr
      intro x hx
      simp [not_le]
    rw [h1, h2]
  · intro sr
    have h1000 : (0:ℚ) < 1000 := by norm_num
    have hdm := Nat.div_add_mod sr 1000
    have hlt : sr % 1000 < 1000 := Nat.mod_lt _ (by norm_num)
    have hcast : (1000:ℚ) * ((sr / 1000 : ℕ) : ℚ) + ((sr % 1000 : ℕ) : ℚ) = (sr : ℚ) := by
      exact_mod_cast congrArg (Nat.cast : ℕ → ℚ) hdm
    have hr0 : (0:ℚ) ≤ ((sr % 1000 : ℕ) : ℚ) := Nat.cast_nonneg _
    have hr1 : ((sr % 1000 : ℕ) : ℚ) < 1000 := by exact_mod_cast hlt
    have hfl : ⌊(sr : ℚ) / 1000⌋ = ((sr / 1000 : ℕ) : ℤ) := by
      rw [Int.floor_eq_iff]
      constructor
      · rw [le_div_iff₀ h1000, ← hcast, Int.cast_natCast]
        linarith
      · rw [div_lt_iff₀ h1000, ← hcast, Int.cast_natCast]
        linarith
    rw [hfl]
    simp only [lpc_order]
    push_cast
    ring
  · intro l hl
    have hs : List.Sorted (· ≤ ·) (sortQ l) := List.sorted_insertionSort _ l
    have hp : List.Perm (sortQ l) l := List.perm_insertionSort _ l
    cases hsort : sortQ l with
    | nil =>
      exfalso
      rw [hsort] at hp
      exact hl hp.nil_eq.symm
    | cons m t =>
      rw [hsort] at hs hp
      refine ⟨m, rfl, hp.subset (List.mem_cons_self m t), ?_⟩
      intro x hx
      have hx2 : x ∈ m :: t := hp.mem_iff.mpr hx
      rcases List.mem_cons.mp hx2 with h | h
      · exact h ▸ le_rfl
      · exact (List.sorted_cons.mp hs).1 x h

/-! ## The extended 15-second analysis block (app.py lines 345-374) -/

/-- The extended features of the 15-second segment analysis (formants and
the rounded spectral summaries). -/
structure ExtFeat where
  f1 : Option ℚ
  f2 : Option ℚ
  centroid_mean : ℚ
  bandwidth_mean : ℚ
  flatness_mean : ℚ
  slope : ℚ

/-- The extended analysis block (app.py lines 351-374) as `Except`:
`frame = y_seg[mid-512 : mid+512] * np.hamming(1024)` with
`mid = len(y_seg) // 2` — `w` is the window (np.hamming(1024), all of
whose entries are positive); `librosa.lpc` runs Burg's method, which
raises `FloatingPointError` when the prediction-error energy `den <= 0`,
and on the first iteration `den` is a sum of squares of frame entries, so
the raise condition for a frame is that all its entries are zero (a
strictly positive `den` cannot arise from a silent frame); the raise is
modelled as `Except.error ()`.  There is no `try/except` in the source,
and the spectral centroid / bandwidth / flatness / slope of the segment
are computed only after this point (lines 362-374), abstracted here by
the per-frame series `centroidF`, `bwF`, `flatF` and the fitted `slopeF`;
`lpcC frame order` abstracts the returned coefficients and `rootsOf`
abstracts `np.roots`. -/
def extended_block (w : List ℚ) (lpcC : List ℚ → ℕ → List ℚ)
    (rootsOf : List ℚ → List (ℚ × ℚ)) (nang : ℚ × ℚ → ℚ)
    (centroidF bwF flatF : List ℚ → List ℚ) (slopeF : List ℚ → ℚ)
    (y_seg : List ℚ) (sr : ℕ) : Except Unit ExtFeat :=
  let mid := y_seg.length / 2
  let frame := List.zipWith (fun a b => a * b) ((y_seg.drop (mid - 512)).take 1024) w
  if frame.all (fun x => decide (x = 0)) then Except.error ()
  else
    let coeffs := lpcC frame (lpc_order sr)
    let fp := formant_pipeline (sr : ℚ) nang (rootsOf coeffs)
    Except.ok
      { f1 := fp.1
      , f2 := fp.2
      , centroid_mean := pyRound1 (qmean (centroidF y_seg))
      , bandwidth_mean := pyRound1 (qmean (bwF y_seg))
      , flatness_mean := pyRound4 (qmean (flatF y_seg))
      , slope := slopeF y_seg }

/-! ## Claim C1 -/

/-- A windowed all-zero frame is all zero, whatever the window. -/
theorem zipWith_mul_replicate_zero (k : ℕ) (w : List ℚ) :
    (List.zipWith (fun a b => a * b) (List.replicate k (0:ℚ)) w).all
      (fun x => decide (x = 0)) = true := by
  induction k generalizing w with
  | zero => simp
  | succ n ih =>
    cases w with
    | nil => simp
    | cons b bs => simp [List.replicate_succ, ih bs]

/-- Claim C1 (code bug exhibit): on a silent 15-second segment (240000
zero samples, e.g. 15 s at 16 kHz) the extended block raises — the
`FloatingPointError` of `librosa.lpc` propagates, because the source has
no `try/except` around the LPC/root-finding step — instead of returning
empty formants; consequently none of the features computed after it
(centroid, bandwidth, flatness, slope) are produced either, for every
window and every abstraction of the library calls. -/
theorem claim_c1_silent_segment_raises :
    ∀ (w : List ℚ) (lpcC : List ℚ → ℕ → List ℚ) (rootsOf : List ℚ → List (ℚ × ℚ))
      (nang : ℚ × ℚ → ℚ) (centroidF bwF flatF : List ℚ → List ℚ)
      (slopeF : List ℚ → ℚ) (sr : ℕ),
      extended_block w lpcC rootsOf nang centroidF bwF flatF slopeF
        (List.replicate 240000 0) sr = Except.error () := by
  intro w lpcC rootsOf nang centroidF bwF flatF slopeF sr
  simp only [extended_block, List.length_replicate, List.drop_replicate,
    List.take_replicate]
  rw [if_pos (zipWith_mul_replicate_zero _ w)]

end VoiceApp
